import Mathlib

/-!
Verification of the flow-registry and chat-streaming logic of
`src/mcp_server/server.py` (ifly-workflow-mcp-server).

The Python module is shallowly embedded: JSON values are an inductive type,
Python's dynamic subscripting (`d[k]`, `xs[i]`, `d.get(k, dflt)`) is modelled
in an `Except PyErr` monad mirroring the exceptions CPython raises, and the
generator `chat_message` becomes a function from the list of physical lines of
the HTTP body to the list of yielded fragments plus an outcome (normal end or
an uncaught exception).  `json.loads` is a library call outside the repository;
stream-processing definitions are therefore parameterised by a
`loads : String → Option Json` oracle, and a concrete executable JSON parser
(`json_loads`, below) instantiates it for concrete inputs.
-/

namespace IflyServer

/-- A JSON value, the result of a successful `json.loads`.  Numbers are
modelled as integers (every numeric literal appearing in this service's
protocol frames is an integer status code). Objects keep insertion order;
the parser below overwrites duplicate keys as CPython's `json.loads` does. -/
inductive Json where
  | null
  | bool (b : Bool)
  | num (n : Int)
  | str (s : String)
  | arr (elems : List Json)
  | obj (fields : List (String × Json))
deriving Repr

/-- The CPython exceptions the embedded code can raise. -/
inductive PyErr where
  | keyError (k : String)
  | keyErrorIdx (i : Nat)
  | indexError
  | typeError
  | attributeError
  | valueError (msg : String)
  | valueErrorJson (j : Json)
deriving Repr

/-- First binding of a key in an object's field list. -/
def jlookup : List (String × Json) → String → Option Json
  | [], _ => none
  | (k', v) :: kvs, k => if k' = k then some v else jlookup kvs k

/-- Python subscript `j[k]` with a string key: succeeds only on a dict,
raising `KeyError` when the key is absent and `TypeError` on any other
value (lists and strings demand integer indices; the rest are not
subscriptable). -/
def getItemS (j : Json) (k : String) : Except PyErr Json :=
  match j with
  | .obj kvs =>
    match jlookup kvs k with
    | some v => .ok v
    | none => .error (.keyError k)
  | _ => .error .typeError

/-- Python subscript `j[i]` with a (non-negative) integer index:
`IndexError` past the end of a list or string, `KeyError` on a dict
without that integer key, `TypeError` elsewhere. -/
def getItemN (j : Json) (i : Nat) : Except PyErr Json :=
  match j with
  | .arr xs =>
    match xs.get? i with
    | some v => .ok v
    | none => .error .indexError
  | .str s =>
    match s.data.get? i with
    | some c => .ok (.str (String.mk [c]))
    | none => .error .indexError
  | .obj _ => .error (.keyErrorIdx i)
  | _ => .error .typeError

/-- Python `j.get(k, dflt)`: only dicts have `.get`; any other JSON value
raises `AttributeError`. -/
def objGet (j : Json) (k : String) (dflt : Json) : Except PyErr Json :=
  match j with
  | .obj kvs => .ok ((jlookup kvs k).getD dflt)
  | _ => .error .attributeError

/-- Python `==` between a decoded JSON value and the integer `n`
(`True == 1`, `False == 0`; values of other types never equal an int). -/
def pyEqInt (j : Json) (n : Int) : Bool :=
  match j with
  | .num m => m = n
  | .bool b => (if b then (1 : Int) else 0) = n
  | _ => false

/-- Python `==` between a decoded JSON value and the string `s`. -/
def pyEqStr (j : Json) (s : String) : Bool :=
  match j with
  | .str t => t = s
  | _ => false

/-- Python's `repr` of a bytes line as rendered by an f-string
(`f"...{line}"`), modelled for lines free of single quotes, backslashes
and non-printable bytes: `b'<line>'`. -/
def bytesRepr (line : String) : String := "b'" ++ line ++ "'"

/-- The diagnostic fragment `f"Error decoding JSON: {line}"` yielded on a
`json.JSONDecodeError` (server.py line 114). -/
def decode_error_msg (line : String) : String :=
  "Error decoding JSON: " ++ bytesRepr line

/-- Control after processing one `data:` line: fall through to the next
line, `break` out of the loop, or propagate an uncaught exception. -/
inductive Ctrl where
  | next
  | brk
  | crash (e : PyErr)
deriving Repr

/-- Outcome of a whole generator run: exhausted normally, or terminated by
an uncaught exception. -/
inductive StreamOutcome where
  | done
  | raised (e : PyErr)
deriving Repr

/-- `line[5:].decode('utf-8')`: the payload after the `data:` prefix. -/
def dropPrefix5 (line : String) : String := String.mk (line.data.drop 5)

/-- `pre` is a prefix of `cs`. -/
def charsPrefix : List Char → List Char → Bool
  | [], _ => true
  | _ :: _, [] => false
  | p :: ps, c :: cs => p = c && charsPrefix ps cs

/-- `line and line.startswith(b'data:')` (server.py line 102): the line is
nonempty and carries the `data:` prefix. -/
def isDataLine (line : String) : Bool :=
  !line.data.isEmpty && charsPrefix "data:".data line.data

/-- The body of the `for` loop of `chat_message` in streaming mode
(server.py lines 103-114) for one qualifying `data:` line: the fragments
yielded while processing this line (0, 1) and the resulting control. -/
def process_data_line (loads : String → Option Json) (line : String) :
    List Json × Ctrl :=
  let src_content := dropPrefix5 line
  match loads src_content with
  | none => ([.str (decode_error_msg line)], .next)
  | some json_data =>
    match objGet json_data "code" (.num 0) with
    | .error e => ([], .crash e)
    | .ok c =>
      if !pyEqInt c 0 then ([.str src_content], .brk)
      else
        match getItemS json_data "choices" >>= fun chs => getItemN chs 0 with
        | .error e => ([], .crash e)
        | .ok choice =>
          match getItemS choice "delta" >>= fun d => getItemS d "content" with
          | .error e => ([], .crash e)
          | .ok content =>
            match getItemS choice "finish_reason" with
            | .error e => ([content], .crash e)
            | .ok fr =>
              if pyEqStr fr "stop" then ([content], .brk)
              else ([content], .next)

/-- `chat_message` in streaming mode (server.py lines 100-114): consume the
body's physical lines in order, skip lines not starting with `data:`, and
collect the yielded fragments together with how the generator ended. -/
def chat_message_stream (loads : String → Option Json) :
    List String → List Json × StreamOutcome
  | [] => ([], .done)
  | line :: rest =>
    if isDataLine line then
      match process_data_line loads line with
      | (frags, .next) =>
        let (fs, o) := chat_message_stream loads rest
        (frags ++ fs, o)
      | (frags, .brk) => (frags, .done)
      | (frags, .crash e) => (frags, .raised e)
    else chat_message_stream loads rest

mutual
/-- `json.dumps` with CPython's default separators (`", "` and `": "`);
string escaping is modelled for strings free of quotes, backslashes and
control characters. -/
def dumps : Json → String
  | .null => "null"
  | .bool true => "true"
  | .bool false => "false"
  | .num n => toString n
  | .str s => "\"" ++ s ++ "\""
  | .arr xs => "[" ++ dumpsList xs ++ "]"
  | .obj kvs => "\x7b" ++ dumpsFields kvs ++ "\x7d"

def dumpsList : List Json → String
  | [] => ""
  | [x] => dumps x
  | x :: xs => dumps x ++ ", " ++ dumpsList xs

def dumpsFields : List (String × Json) → String
  | [] => ""
  | [(k, v)] => "\"" ++ k ++ "\": " ++ dumps v
  | (k, v) :: kvs => "\"" ++ k ++ "\": " ++ dumps v ++ ", " ++ dumpsFields kvs
end

/-- `chat_message` in non-streaming mode (server.py lines 115-120), applied
to the result of `response.json()`: exactly one fragment when the accesses
succeed, an uncaught exception otherwise. -/
def chat_message_nonstream (json_data : Json) : List Json × StreamOutcome :=
  match objGet json_data "code" (.num 0) with
  | .error e => ([], .raised e)
  | .ok c =>
    if !pyEqInt c 0 then ([.str (dumps json_data)], .done)
    else
      match getItemS json_data "choices" >>= fun chs => getItemN chs 0
            >>= fun ch0 => getItemS ch0 "delta"
            >>= fun d => getItemS d "content" with
      | .error e => ([], .raised e)
      | .ok content => ([content], .done)

/-! ### A concrete `json.loads`

An executable recursive-descent JSON parser used to instantiate the
`loads` oracle on concrete inputs.  It covers the grammar fragment the
service's frames use (objects, arrays, strings with simple escapes,
integers, `true`/`false`/`null`, insignificant whitespace); like CPython's
parser it requires the whole input to be a single JSON document and keeps
the last binding of a duplicated object key. -/

/-- JSON insignificant whitespace. -/
def isJsonWs (c : Char) : Bool :=
  c = ' ' || c = '\t' || c = '\n' || c = '\r'

/-- Drop leading insignificant whitespace. -/
def skipWs : List Char → List Char
  | [] => []
  | c :: cs => if isJsonWs c then skipWs cs else c :: cs

/-- Decode a backslash escape inside a JSON string literal. -/
def unescape (e : Char) : Option Char :=
  if e = '"' then some '"'
  else if e = '\\' then some '\\'
  else if e = '/' then some '/'
  else if e = 'n' then some '\n'
  else if e = 't' then some '\t'
  else if e = 'r' then some '\r'
  else if e = 'b' then some (Char.ofNat 8)
  else if e = 'f' then some (Char.ofNat 12)
  else none

/-- Parse the body of a string literal after its opening quote, up to and
including the closing quote; returns the decoded characters and the rest. -/
def parseStringBody : List Char → Option (List Char × List Char)
  | [] => none
  | '"' :: cs => some ([], cs)
  | '\\' :: [] => none
  | '\\' :: e :: cs =>
    (unescape e).bind fun d =>
      (parseStringBody cs).map fun p => (d :: p.1, p.2)
  | c :: cs => (parseStringBody cs).map fun p => (c :: p.1, p.2)

/-- Longest leading run of decimal digits. -/
def takeDigits : List Char → List Char × List Char
  | [] => ([], [])
  | c :: cs =>
    if c.isDigit then
      let (ds, r) := takeDigits cs
      (c :: ds, r)
    else ([], c :: cs)

/-- Numeric value of a digit run. -/
def digitsToNat (ds : List Char) : Nat :=
  ds.foldl (fun n c => n * 10 + (c.toNat - 48)) 0

/-- Check a literal suffix such as `ull` after the leading `n` of `null`. -/
def stripLit : List Char → List Char → Option (List Char)
  | [], cs => some cs
  | _ :: _, [] => none
  | l :: ls, c :: cs => if l = c then stripLit ls cs else none

/-- Insert a key/value pair, overwriting an earlier binding of the key. -/
def insertField : List (String × Json) → String → Json → List (String × Json)
  | [], k, v => [(k, v)]
  | (k', v') :: kvs, k, v =>
    if k' = k then (k, v) :: kvs else (k', v') :: insertField kvs k v

/-- Keep only the last binding of each key, as a CPython dict literal does. -/
def dedupFields (kvs : List (String × Json)) : List (String × Json) :=
  kvs.foldl (fun acc p => insertField acc p.1 p.2) []

mutual
/-- Parse one JSON value from a whitespace-prefixed character stream. -/
def parseValue : Nat → List Char → Option (Json × List Char)
  | 0, _ => none
  | fuel + 1, cs =>
    match skipWs cs with
    | [] => none
    | '"' :: rest =>
      (parseStringBody rest).map fun p => (.str (String.mk p.1), p.2)
    | 'n' :: rest => (stripLit ['u', 'l', 'l'] rest).map fun r => (.null, r)
    | 't' :: rest => (stripLit ['r', 'u', 'e'] rest).map fun r => (.bool true, r)
    | 'f' :: rest => (stripLit ['a', 'l', 's', 'e'] rest).map fun r => (.bool false, r)
    | '[' :: rest =>
      match skipWs rest with
      | ']' :: rest' => some (.arr [], rest')
      | cs' =>
        match parseElems fuel cs' with
        | some (xs, rest') => some (.arr xs, rest')
        | none => none
    | '\x7b' :: rest =>
      match skipWs rest with
      | '\x7d' :: rest' => some (.obj [], rest')
      | cs' =>
        match parseFields fuel cs' with
        | some (kvs, rest') => some (.obj (dedupFields kvs), rest')
        | none => none
    | '-' :: rest =>
      match takeDigits rest with
      | ([], _) => none
      | (ds, r) => some (.num (-(digitsToNat ds : Int)), r)
    | c :: rest =>
      if c.isDigit then
        match takeDigits (c :: rest) with
        | (ds, r) => some (.num (digitsToNat ds), r)
      else none

/-- Parse a nonempty comma-separated element list up to the closing `]`. -/
def parseElems : Nat → List Char → Option (List Json × List Char)
  | 0, _ => none
  | fuel + 1, cs =>
    match parseValue fuel cs with
    | none => none
    | some (v, rest) =>
      match skipWs rest with
      | ',' :: rest' =>
        match parseElems fuel rest' with
        | some (vs, rest'') => some (v :: vs, rest'')
        | none => none
      | ']' :: rest' => some ([v], rest')
      | _ => none

/-- Parse a nonempty comma-separated member list up to the closing brace. -/
def parseFields : Nat → List Char → Option (List (String × Json) × List Char)
  | 0, _ => none
  | fuel + 1, cs =>
    match skipWs cs with
    | '"' :: rest =>
      match parseStringBody rest with
      | none => none
      | some (k, rest1) =>
        match skipWs rest1 with
        | ':' :: rest2 =>
          match parseValue fuel rest2 with
          | none => none
          | some (v, rest3) =>
            match skipWs rest3 with
            | ',' :: rest4 =>
              match parseFields fuel rest4 with
              | some (kvs, rest5) => some ((String.mk k, v) :: kvs, rest5)
              | none => none
            | '\x7d' :: rest4 => some ([(String.mk k, v)], rest4)
            | _ => none
        | _ => none
    | _ => none
end

/-- The `json.loads` model: parse one complete document, allowing only
trailing whitespace, as CPython does. -/
def json_loads (s : String) : Option Json :=
  match parseValue (s.data.length + 1) s.data with
  | none => none
  | some (v, rest) => if (skipWs rest).isEmpty then some v else none

/-! ### The flow catalog

`Flow`, `IFlyWorkflowAPI.__init__` (server.py lines 29-47),
`_add_sys_tool` (lines 49-72), `get_flow_info` (lines 122-142) and the
name index.  The remote describe-call (`requests.get` +
`raise_for_status()` + `response.json()`) is outside the repository and is
modelled as an oracle `fetch : String → String → Except PyErr Json`
mapping `(flow_id, api_key)` to the parsed response body (or an HTTP-layer
failure). -/

/-- The `Flow` pydantic model (server.py lines 17-23). -/
structure Flow where
  flow_id : String
  name : String := ""
  description : String := ""
  api_key : String
  input_schema : Json := .obj []
deriving Repr

/-- `get_flow_info` (server.py lines 122-142) applied to the outcome of the
HTTP request: propagate transport failures, then
`raise ValueError(json_data)` when the payload's `code` is present and
nonzero, else return the payload. -/
def get_flow_info (resp : Except PyErr Json) : Except PyErr Json :=
  match resp with
  | .error e => .error e
  | .ok json_data =>
    match objGet json_data "code" (.num 0) with
    | .error e => .error e
    | .ok c =>
      if !pyEqInt c 0 then .error (.valueErrorJson json_data)
      else .ok json_data

/-- `flow_info["data"][k]`: the field `k` of the describe response's data
payload. -/
def dataField (flow_info : Json) (k : String) : Except PyErr Json := do
  let d ← getItemS flow_info "data"
  getItemS d k

/-- Require a JSON string.  The source assigns the raw response value to the
`str`-typed pydantic fields `name`/`description`; we model describe
responses whose metadata fields are strings. -/
def expectStr (j : Json) : Except PyErr String :=
  match j with
  | .str s => .ok s
  | _ => .error .typeError

/-- The body of the metadata loop of `__init__` (server.py lines 37-41) for
one flow: keep a truthy (nonempty) local field, otherwise take it from
`flow_info["data"]` (`x if x else flow_info["data"][k]`). -/
def resolveField (loc : String) (flow_info : Json) (k : String) :
    Except PyErr String :=
  if !loc.isEmpty then .ok loc
  else
    match dataField flow_info k with
    | .error e => .error e
    | .ok v => expectStr v

/-- The three assignments of the metadata loop for one flow. -/
def populate_flow (flow_info : Json) (f : Flow) : Except PyErr Flow :=
  match resolveField f.name flow_info "name" with
  | .error e => .error e
  | .ok name =>
    match resolveField f.description flow_info "description" with
    | .error e => .error e
    | .ok description =>
      match dataField flow_info "inputSchema" with
      | .error e => .error e
      | .ok input_schema =>
        .ok { f with name := name, description := description,
                     input_schema := input_schema }

/-- The metadata loop of `__init__` (server.py lines 37-41) over the whole
flow list: the first failing describe-call aborts construction. -/
def populate_all (fetch : String → String → Except PyErr Json) :
    List Flow → Except PyErr (List Flow)
  | [] => .ok []
  | f :: fs =>
    match get_flow_info (fetch f.flow_id f.api_key) with
    | .error e => .error e
    | .ok flow_info =>
      match populate_flow flow_info f with
      | .error e => .error e
      | .ok f' =>
        match populate_all fetch fs with
        | .error e => .error e
        | .ok fs' => .ok (f' :: fs')

/-- The input schema of the reserved upload tool (server.py lines 61-70). -/
def sys_upload_schema : Json :=
  .obj [("type", .str "object"),
        ("properties",
          .obj [("file", .obj [("type", .str "string"),
                               ("description", .str "file path")])]),
        ("required", .arr [.str "file"])]

/-- The reserved upload tool appended by `_add_sys_tool`
(server.py lines 54-72). -/
def sys_upload_flow (api_key : String) : Flow :=
  { flow_id := "sys_upload_file",
    name := "sys_upload_file",
    api_key := api_key,
    description := "upload file. Format support: image(jpg、png、bmp、jpeg), doc(pdf)",
    input_schema := sys_upload_schema }

/-- `_add_sys_tool` (server.py lines 49-72): append the reserved
`sys_upload_file` flow, reading `self.flows[0].api_key` — an `IndexError`
when no flow was defined. -/
def add_sys_tool (flows : List Flow) : Except PyErr (List Flow) :=
  match flows with
  | [] => .error .indexError
  | f0 :: _ => .ok (flows ++ [sys_upload_flow f0.api_key])

/-- `self.name_idx[k] = v` on a CPython dict, modelled as an ordered
association list: overwrite an existing binding in place, else append. -/
def dict_insert (d : List (String × Nat)) (k : String) (v : Nat) :
    List (String × Nat) :=
  match d with
  | [] => [(k, v)]
  | (k', v') :: rest =>
    if k' = k then (k, v) :: rest else (k', v') :: dict_insert rest k v

/-- Dict lookup (`d[k]` / `k in d`). -/
def dict_lookup (d : List (String × Nat)) (k : String) : Option Nat :=
  match d with
  | [] => none
  | (k', v) :: rest => if k' = k then some v else dict_lookup rest k

/-- `for i, flow in enumerate(self.flows): self.name_idx[flow.name] = i`
(server.py lines 46-47), with the running index made explicit. -/
def build_name_idx_from (i : Nat) (flows : List Flow)
    (d : List (String × Nat)) : List (String × Nat) :=
  match flows with
  | [] => d
  | f :: fs => build_name_idx_from (i + 1) fs (dict_insert d f.name i)

/-- The name index built by `__init__` (server.py lines 45-47). -/
def build_name_idx (flows : List Flow) : List (String × Nat) :=
  build_name_idx_from 0 flows []

/-- The state `IFlyWorkflowAPI.__init__` leaves behind on success. -/
structure Catalog where
  flows : List Flow
  name_idx : List (String × Nat)
deriving Repr

/-- `IFlyWorkflowAPI.__init__` (server.py lines 29-47) after config
loading: populate metadata for every defined flow, append the reserved
upload tool, build the name index.  Any raised exception aborts
construction and no catalog is produced. -/
def ifly_init (fetch : String → String → Except PyErr Json)
    (defs : List Flow) : Except PyErr Catalog :=
  match populate_all fetch defs with
  | .error e => .error e
  | .ok flows =>
    match add_sys_tool flows with
    | .error e => .error e
    | .ok flows2 => .ok { flows := flows2, name_idx := build_name_idx flows2 }

/-- `handle_call_tool` (server.py lines 184-224).  The two remote effects
are oracles: `upload` maps `(api_key, file_path)` to the decoded upload
response, `chat_lines` maps the flow and arguments to the physical lines
of the streaming chat response (the handler always calls `chat_message`
with the default `stream=True`).  On success the result is the list of
`TextContent` payloads, one per yielded value, in emission order. -/
def handle_call_tool (cat : Catalog)
    (upload : String → Json → Except PyErr String)
    (chat_lines : Flow → Json → List String)
    (loads : String → Option Json)
    (name : String) (arguments : Json) : Except PyErr (List Json) :=
  match dict_lookup cat.name_idx name with
  | none => .error (.valueError ("Unknown tool: " ++ name))
  | some i =>
    match cat.flows.get? i with
    | none => .error .indexError
    | some flow =>
      if name = "sys_upload_file" then
        match getItemS arguments "file" with
        | .error e => .error e
        | .ok file_path =>
          match upload flow.api_key file_path with
          | .error e => .error e
          | .ok data => .ok [.str data]
      else
        match chat_message_stream loads (chat_lines flow arguments) with
        | (frags, .done) => .ok frags
        | (_, .raised e) => .error e

/-! ### Concrete frames used by the spec's streaming example -/

/-- The first example line of the spec's streaming-parse property. -/
def stream_line_a : String :=
  "data: \x7b\"choices\":[\x7b\"delta\":\x7b\"content\":\"a\"\x7d,\"finish_reason\":null\x7d],\"code\":0\x7d"

/-- The second example line: `finish_reason` is `"stop"`. -/
def stream_line_b : String :=
  "data: \x7b\"choices\":[\x7b\"delta\":\x7b\"content\":\"b\"\x7d,\"finish_reason\":\"stop\"\x7d],\"code\":0\x7d"

/-! ### Concrete fixtures for witnesses and counterexamples -/

/-- A frame whose `code` is `1` (the spec's short-circuit example). -/
def err_line : String := "data: \x7b\"code\":1\x7d"
/-- A line that is not JSON after the `data:` prefix. -/
def bad_json_line : String := "data: not json"
/-- Valid JSON with `code` 0 but no `choices` key. -/
def shape_line_no_choices : String := "data: \x7b\"code\":0\x7d"

/-- Valid JSON with an empty `choices` array. -/
def shape_line_empty_choices : String := "data: \x7b\"choices\":[],\"code\":0\x7d"

/-- Valid JSON whose first choice lacks `delta`. -/
def shape_line_no_delta : String :=
  "data: \x7b\"choices\":[\x7b\"finish_reason\":null\x7d],\"code\":0\x7d"

/-- Valid JSON whose `delta` lacks `content`. -/
def shape_line_no_content : String :=
  "data: \x7b\"choices\":[\x7b\"delta\":\x7b\x7d,\"finish_reason\":null\x7d],\"code\":0\x7d"

/-- Valid JSON whose first choice lacks `finish_reason`. -/
def shape_line_no_finish : String :=
  "data: \x7b\"choices\":[\x7b\"delta\":\x7b\"content\":\"a\"\x7d\x7d],\"code\":0\x7d"
/-- A well-formed non-streaming success body. -/
def nonstream_ok_body : Json :=
  .obj [("choices",
          .arr [.obj [("delta", .obj [("content", .str "hi")]),
                      ("finish_reason", .str "stop")]]),
        ("code", .num 0)]
/-- A describe response carrying string metadata and an empty-object schema. -/
def describe_resp_w : Json :=
  .obj [("data", .obj [("name", .str "remoteN"),
                       ("description", .str "remoteD"),
                       ("inputSchema", .arr [])])]
/-- A definition with a local name but no local description. -/
def flow_def_w : Flow :=
  { flow_id := "fid", name := "localN", description := "", api_key := "k1",
    input_schema := .obj [] }
/-- The populated result of `flow_def_w` against `describe_resp_w`. -/
def flow_populated_w : Flow :=
  { flow_id := "fid", name := "localN", description := "remoteD",
    api_key := "k1", input_schema := .arr [] }
/-- The catalog built from the single definition `flow_def_w` when every
describe-call answers `describe_resp_w`. -/
def catalog_w : Catalog :=
  { flows := [flow_populated_w, sys_upload_flow "k1"],
    name_idx := [("localN", 0), ("sys_upload_file", 1)] }
/-- First flow of the collision pair. -/
def dup_flow_1 : Flow := { flow_id := "f1", name := "dup", api_key := "k1" }

/-- Second flow of the collision pair (later in catalog order). -/
def dup_flow_2 : Flow := { flow_id := "f2", name := "dup", api_key := "k2" }
/-- The index the enumeration loop assigns last to the name `n`, starting
the count at `i`: the index of the last flow in the list named `n`. -/
def lastIdxFrom (i : Nat) : List Flow → String → Option Nat
  | [], _ => none
  | f :: fs, n =>
    match lastIdxFrom (i + 1) fs n with
    | some j => some j
    | none => if f.name = n then some i else none

/-! ### Streaming-mode theorems -/

example : json_loads "  \x7b\"a\": [1, -2, null], \"b\": \"x\"\x7d " =
    some (.obj [("a", .arr [.num 1, .num (-2), .null]), ("b", .str "x")]) := rfl

example : process_data_line json_loads stream_line_a = ([.str "a"], .next) := rfl
example : process_data_line json_loads stream_line_b = ([.str "b"], .brk) := rfl
example : isDataLine stream_line_a = true := rfl
example : chat_message_stream json_loads [stream_line_a, stream_line_b] =
    ([.str "a", .str "b"], .done) := rfl

/-- String concatenation is associative. -/
theorem string_append_assoc (a b c : String) : a ++ b ++ c = a ++ (b ++ c) := by
  cases a; cases b; cases c
  exact congrArg String.mk (List.append_assoc _ _ _)

/-- C1: in streaming mode, on the body whose lines are
`data: {"choices":[{"delta":{"content":"a"},"finish_reason":null}],"code":0}`
and then
`data: {"choices":[{"delta":{"content":"b"},"finish_reason":"stop"}],"code":0}`,
`chat_message` yields exactly the fragments `"a"`, `"b"` and terminates on
the `"stop"` frame: whatever lines follow, nothing further is yielded. -/
theorem stream_example_yields_a_b (rest : List String) :
    chat_message_stream json_loads (stream_line_a :: stream_line_b :: rest) =
      ([.str "a", .str "b"], .done) := by
  have d1 : isDataLine stream_line_a = true := rfl
  have d2 : isDataLine stream_line_b = true := rfl
  have h1 : process_data_line json_loads stream_line_a =
      ([Json.str "a"], Ctrl.next) := rfl
  have h2 : process_data_line json_loads stream_line_b =
      ([Json.str "b"], Ctrl.brk) := rfl
  simp [chat_message_stream, d1, d2, h1, h2]

/-- C2: a `data:` line whose payload parses to a JSON value whose `code`
field is present and nonzero (in Python's `!= 0` sense) makes
`chat_message` yield the raw pre-parse payload string as its only
fragment and break out of the loop: whatever lines follow are never
examined. -/
theorem error_code_frame_short_circuits (loads : String → Option Json)
    (line : String) (rest : List String) (j c : Json)
    (hd : isDataLine line = true)
    (hp : loads (dropPrefix5 line) = some j)
    (hc : objGet j "code" (Json.num 0) = Except.ok c)
    (hnz : pyEqInt c 0 = false) :
    chat_message_stream loads (line :: rest) =
      ([.str (dropPrefix5 line)], .done) := by
  have hpl : process_data_line loads line =
      ([Json.str (dropPrefix5 line)], Ctrl.brk) := by
    simp [process_data_line, hp, hc, hnz]
  simp [chat_message_stream, hd, hpl]

/-- Witness for C2: on the concrete frame `data: {"code":1}` followed by a
well-formed frame, the only fragment is the frame's raw payload text and
the stream is done. -/
theorem error_code_frame_short_circuits_witness :
    chat_message_stream json_loads [err_line, stream_line_a] =
      ([.str (dropPrefix5 err_line)], .done) :=
  error_code_frame_short_circuits json_loads err_line [stream_line_a]
    (Json.obj [("code", Json.num 1)]) (Json.num 1) rfl rfl rfl rfl

/-- C3: a `data:` line whose payload fails to parse as JSON contributes
exactly one diagnostic fragment — the decode-error message, which embeds
the raw line — and processing continues with the remaining lines exactly
as if the malformed line were not there; it never terminates the
sequence. -/
theorem malformed_line_diagnostic_then_continues (loads : String → Option Json)
    (line : String) (rest : List String)
    (hd : isDataLine line = true)
    (hp : loads (dropPrefix5 line) = none) :
    chat_message_stream loads (line :: rest) =
      (Json.str (decode_error_msg line) :: (chat_message_stream loads rest).1,
        (chat_message_stream loads rest).2) ∧
    ∃ pre post, decode_error_msg line = pre ++ line ++ post := by
  constructor
  · have hpl : process_data_line loads line =
        ([Json.str (decode_error_msg line)], Ctrl.next) := by
      simp [process_data_line, hp]
    rcases hr : chat_message_stream loads rest with ⟨fs, o⟩
    simp [chat_message_stream, hd, hpl, hr]
  · refine ⟨"Error decoding JSON: b'", "'", ?_⟩
    show "Error decoding JSON: " ++ ("b'" ++ line ++ "'") = _
    rw [string_append_assoc "Error decoding JSON: b'" line "'",
        string_append_assoc "b'" line "'",
        ← string_append_assoc "Error decoding JSON: " "b'" (line ++ "'")]
    congr 1

/-- Witness for C3: the concrete non-JSON line `data: not json` yields one
diagnostic fragment and the following well-formed stop frame is still
processed. -/
theorem malformed_line_diagnostic_then_continues_witness :
    chat_message_stream json_loads [bad_json_line, stream_line_b] =
      (Json.str (decode_error_msg bad_json_line) ::
        (chat_message_stream json_loads [stream_line_b]).1,
        (chat_message_stream json_loads [stream_line_b]).2) ∧
    ∃ pre post, decode_error_msg bad_json_line = pre ++ bad_json_line ++ post :=
  malformed_line_diagnostic_then_continues json_loads bad_json_line
    [stream_line_b] rfl rfl

/-! ### Shape errors are uncaught (C10) and non-streaming mode (C4) -/

/-- C10: a `data:` line that parses as JSON with `code` 0 but without the
expected shape makes `chat_message` raise an uncaught `KeyError`/`IndexError`
that terminates the whole call — the following well-formed stop frame is
never processed and no diagnostic fragment is yielded.  The five shapes:
missing `choices`, empty `choices`, missing `delta`, missing `content`
(no fragment at all), and missing `finish_reason` (the content fragment is
yielded, then the call dies).  Only JSON decode failures are caught. -/
theorem shape_error_is_uncaught :
    chat_message_stream json_loads [shape_line_no_choices, stream_line_b] =
      ([], .raised (.keyError "choices")) ∧
    chat_message_stream json_loads [shape_line_empty_choices, stream_line_b] =
      ([], .raised .indexError) ∧
    chat_message_stream json_loads [shape_line_no_delta, stream_line_b] =
      ([], .raised (.keyError "delta")) ∧
    chat_message_stream json_loads [shape_line_no_content, stream_line_b] =
      ([], .raised (.keyError "content")) ∧
    chat_message_stream json_loads [shape_line_no_finish, stream_line_b] =
      ([.str "a"], .raised (.keyError "finish_reason")) :=
  ⟨rfl, rfl, rfl, rfl, rfl⟩

/-- C4 counterexample: the body `{}` parses as one JSON object, but in
non-streaming mode `chat_message` raises an uncaught `KeyError` and yields
no fragment at all, not exactly one fragment. -/
theorem nonstream_empty_object_crashes :
    chat_message_nonstream (Json.obj []) = ([], .raised (.keyError "choices")) ∧
    (chat_message_nonstream (Json.obj [])).1.length ≠ 1 :=
  ⟨rfl, by decide⟩

/-- C4 (amended): in non-streaming mode, for a body parsed as one JSON
object, if its `code` field is nonzero the single fragment is the full
JSON text of the payload; if `code` is zero or absent and
`choices[0].delta.content` is accessible, the single fragment is that
content; and if that access raises, the call dies with the raised error
having yielded nothing. -/
theorem nonstream_single_fragment (kvs : List (String × Json)) :
    (∀ c, objGet (Json.obj kvs) "code" (Json.num 0) = Except.ok c →
      pyEqInt c 0 = false →
      chat_message_nonstream (Json.obj kvs) =
        ([.str (dumps (Json.obj kvs))], .done)) ∧
    (∀ c content, objGet (Json.obj kvs) "code" (Json.num 0) = Except.ok c →
      pyEqInt c 0 = true →
      (getItemS (Json.obj kvs) "choices" >>= fun chs => getItemN chs 0
        >>= fun ch0 => getItemS ch0 "delta"
        >>= fun d => getItemS d "content") = Except.ok content →
      chat_message_nonstream (Json.obj kvs) = ([content], .done)) ∧
    (∀ c e, objGet (Json.obj kvs) "code" (Json.num 0) = Except.ok c →
      pyEqInt c 0 = true →
      (getItemS (Json.obj kvs) "choices" >>= fun chs => getItemN chs 0
        >>= fun ch0 => getItemS ch0 "delta"
        >>= fun d => getItemS d "content") = Except.error e →
      chat_message_nonstream (Json.obj kvs) = ([], .raised e)) := by
  refine ⟨?_, ?_, ?_⟩
  · intro c hc hnz
    simp [chat_message_nonstream, hc, hnz]
  · intro c content hc hz hch
    simp [chat_message_nonstream, hc, hz, hch]
  · intro c e hc hz hch
    simp [chat_message_nonstream, hc, hz, hch]

/-- Witness for the amended C4: a nonzero-`code` body yields its own JSON
text; a well-formed `code` 0 body yields `choices[0].delta.content`. -/
theorem nonstream_single_fragment_witness :
    chat_message_nonstream (Json.obj [("code", Json.num 1)]) =
      ([.str (dumps (Json.obj [("code", Json.num 1)]))], .done) ∧
    chat_message_nonstream nonstream_ok_body = ([.str "hi"], .done) :=
  ⟨(nonstream_single_fragment [("code", Json.num 1)]).1 (Json.num 1) rfl rfl,
   (nonstream_single_fragment
      [("choices",
         Json.arr [Json.obj [("delta", Json.obj [("content", Json.str "hi")]),
                             ("finish_reason", Json.str "stop")]]),
        ("code", Json.num 0)]).2.1 (Json.num 0) (Json.str "hi") rfl rfl rfl⟩

/-! ### Catalog-construction theorems -/

/-- A nonempty local field short-circuits the describe-response access. -/
theorem resolveField_of_nonempty (loc : String) (flow_info : Json) (k : String)
    (hs : loc.isEmpty = false) : resolveField loc flow_info k = .ok loc := by
  simp [resolveField, hs]

/-- A successful `resolveField` either kept a nonempty local value or read a
string out of the describe response's data payload. -/
theorem resolveField_ok (loc : String) (flow_info : Json) (k r : String)
    (h : resolveField loc flow_info k = .ok r) :
    (loc.isEmpty = false ∧ r = loc) ∨
    (loc.isEmpty = true ∧ dataField flow_info k = .ok (.str r)) := by
  unfold resolveField at h
  cases hs : loc.isEmpty with
  | false =>
    left
    rw [hs] at h
    simp at h
    exact ⟨rfl, h.symm⟩
  | true =>
    right
    rw [hs] at h
    simp only [Bool.not_true, if_false] at h
    cases hd : dataField flow_info k with
    | error e => rw [hd] at h; exact absurd h (by simp)
    | ok v =>
      rw [hd] at h
      cases v <;> simp [expectStr] at h
      subst h
      exact ⟨rfl, rfl⟩

/-- `populate_flow` never touches `flow_id` or `api_key`, and on success its
result's `input_schema` is the response's `inputSchema` field. -/
theorem populate_flow_frame (flow_info : Json) (f f' : Flow)
    (h : populate_flow flow_info f = .ok f') :
    f'.flow_id = f.flow_id ∧ f'.api_key = f.api_key ∧
    dataField flow_info "inputSchema" = .ok f'.input_schema ∧
    resolveField f.name flow_info "name" = .ok f'.name ∧
    resolveField f.description flow_info "description" = .ok f'.description := by
  unfold populate_flow at h
  cases hn : resolveField f.name flow_info "name" with
  | error e => rw [hn] at h; exact absurd h (by simp)
  | ok name =>
    rw [hn] at h
    cases hd : resolveField f.description flow_info "description" with
    | error e => rw [hd] at h; exact absurd h (by simp)
    | ok description =>
      rw [hd] at h
      cases hi : dataField flow_info "inputSchema" with
      | error e => rw [hi] at h; exact absurd h (by simp)
      | ok input_schema =>
        rw [hi] at h
        simp at h
        subst h
        exact ⟨rfl, rfl, rfl, rfl, rfl⟩

/-- C9: during catalog construction, a locally supplied (nonempty) `name`
or `description` is left unchanged, an absent one is populated from the
describe response's data payload, and `input_schema` is always overwritten
with the response's `inputSchema` — even when name and description were
supplied locally; `flow_id` and `api_key` are untouched. -/
theorem local_metadata_kept_schema_overwritten (flow_info : Json) (f f' : Flow)
    (h : populate_flow flow_info f = .ok f') :
    (f.name.isEmpty = false → f'.name = f.name) ∧
    (f.description.isEmpty = false → f'.description = f.description) ∧
    (f.name.isEmpty = true → dataField flow_info "name" = .ok (.str f'.name)) ∧
    (f.description.isEmpty = true →
      dataField flow_info "description" = .ok (.str f'.description)) ∧
    dataField flow_info "inputSchema" = .ok f'.input_schema ∧
    f'.flow_id = f.flow_id ∧ f'.api_key = f.api_key := by
  obtain ⟨hid, hkey, hschema, hname, hdesc⟩ := populate_flow_frame _ _ _ h
  refine ⟨?_, ?_, ?_, ?_, hschema, hid, hkey⟩
  · intro hs
    rcases resolveField_ok _ _ _ _ hname with ⟨_, hr⟩ | ⟨hs', _⟩
    · exact hr.symm ▸ rfl
    · rw [hs] at hs'; exact absurd hs' (by simp)
  · intro hs
    rcases resolveField_ok _ _ _ _ hdesc with ⟨_, hr⟩ | ⟨hs', _⟩
    · exact hr.symm ▸ rfl
    · rw [hs] at hs'; exact absurd hs' (by simp)
  · intro hs
    rcases resolveField_ok _ _ _ _ hname with ⟨hs', _⟩ | ⟨_, hd⟩
    · rw [hs] at hs'; exact absurd hs' (by simp)
    · exact hd
  · intro hs
    rcases resolveField_ok _ _ _ _ hdesc with ⟨hs', _⟩ | ⟨_, hd⟩
    · rw [hs] at hs'; exact absurd hs' (by simp)
    · exact hd

/-- Witness for C9 at a concrete definition and describe response: the
local name survives, the missing description is filled from the response,
and the schema is taken from the response. -/
theorem local_metadata_kept_schema_overwritten_witness :
    flow_populated_w.name = flow_def_w.name ∧
    dataField describe_resp_w "description" =
      .ok (.str flow_populated_w.description) ∧
    dataField describe_resp_w "inputSchema" =
      .ok flow_populated_w.input_schema :=
  ⟨(local_metadata_kept_schema_overwritten describe_resp_w flow_def_w
      flow_populated_w rfl).1 rfl,
   (local_metadata_kept_schema_overwritten describe_resp_w flow_def_w
      flow_populated_w rfl).2.2.2.1 rfl,
   (local_metadata_kept_schema_overwritten describe_resp_w flow_def_w
      flow_populated_w rfl).2.2.2.2.1⟩

/-- A successful metadata pass produces one flow per definition. -/
theorem populate_all_length (fetch : String → String → Except PyErr Json)
    (defs flows : List Flow) (h : populate_all fetch defs = .ok flows) :
    flows.length = defs.length := by
  induction defs generalizing flows with
  | nil =>
    simp [populate_all] at h
    subst h; rfl
  | cons d ds ih =>
    unfold populate_all at h
    cases h1 : get_flow_info (fetch d.flow_id d.api_key) with
    | error e => rw [h1] at h; exact absurd h (by simp)
    | ok flow_info =>
      rw [h1] at h
      dsimp only at h
      cases h2 : populate_flow flow_info d with
      | error e => rw [h2] at h; exact absurd h (by simp)
      | ok f' =>
        rw [h2] at h
        dsimp only at h
        cases h3 : populate_all fetch ds with
        | error e => rw [h3] at h; exact absurd h (by simp)
        | ok fs' =>
          rw [h3] at h
          simp at h
          subst h
          simp [ih fs' h3]

/-- A successful metadata pass over a nonempty definition list starts with
a flow carrying the first definition's `api_key`. -/
theorem populate_all_head (fetch : String → String → Except PyErr Json)
    (d : Flow) (ds flows : List Flow)
    (h : populate_all fetch (d :: ds) = .ok flows) :
    ∃ f' fs', flows = f' :: fs' ∧ f'.api_key = d.api_key := by
  unfold populate_all at h
  cases h1 : get_flow_info (fetch d.flow_id d.api_key) with
  | error e => rw [h1] at h; exact absurd h (by simp)
  | ok flow_info =>
    rw [h1] at h
    dsimp only at h
    cases h2 : populate_flow flow_info d with
    | error e => rw [h2] at h; exact absurd h (by simp)
    | ok f' =>
      rw [h2] at h
      dsimp only at h
      cases h3 : populate_all fetch ds with
      | error e => rw [h3] at h; exact absurd h (by simp)
      | ok fs' =>
        rw [h3] at h
        simp at h
        subst h
        exact ⟨f', fs', rfl, (populate_flow_frame _ _ _ h2).2.1⟩

/-- C5: a successful construction from `N ≥ 1` definitions produces exactly
`N + 1` flows, the last being the reserved `sys_upload_file` flow (name and
flow_id `sys_upload_file`, the fixed upload schema whose single required
string property is `file`) whose `api_key` is the first definition's. -/
theorem catalog_has_sys_upload (fetch : String → String → Except PyErr Json)
    (d0 : Flow) (ds : List Flow) (cat : Catalog)
    (h : ifly_init fetch (d0 :: ds) = .ok cat) :
    cat.flows.length = (d0 :: ds).length + 1 ∧
    cat.flows.getLast? = some (sys_upload_flow d0.api_key) ∧
    getItemS sys_upload_schema "required" = .ok (.arr [.str "file"]) ∧
    getItemS sys_upload_schema "properties" =
      .ok (.obj [("file", .obj [("type", .str "string"),
                                ("description", .str "file path")])]) := by
  unfold ifly_init at h
  cases h1 : populate_all fetch (d0 :: ds) with
  | error e => rw [h1] at h; exact absurd h (by simp)
  | ok flows =>
    rw [h1] at h
    obtain ⟨f0, fs, hflows, hkey⟩ := populate_all_head fetch d0 ds flows h1
    subst hflows
    simp only [add_sys_tool] at h
    simp at h
    subst h
    refine ⟨?_, ?_, rfl, rfl⟩
    · have := populate_all_length fetch (d0 :: ds) (f0 :: fs) h1
      simp only [List.length_append, List.length_cons, List.length_nil] at this ⊢
      omega
    · rw [hkey] at *
      rw [← List.cons_append, List.getLast?_concat]

/-- Witness for C5: constructing from one concrete definition yields two
flows, the last being the reserved upload flow with the first (and only)
definition's api_key. -/
theorem catalog_has_sys_upload_witness :
    catalog_w.flows.length = ([flow_def_w] : List Flow).length + 1 ∧
    catalog_w.flows.getLast? = some (sys_upload_flow flow_def_w.api_key) ∧
    getItemS sys_upload_schema "required" = .ok (.arr [.str "file"]) ∧
    getItemS sys_upload_schema "properties" =
      .ok (.obj [("file", .obj [("type", .str "string"),
                                ("description", .str "file path")])]) :=
  catalog_has_sys_upload (fun _ _ => .ok describe_resp_w) flow_def_w []
    catalog_w rfl

/-- C7: with zero flow definitions, construction raises (the `IndexError`
from `self.flows[0]` inside `_add_sys_tool` — the spec's `EmptyCatalog`
startup failure) and no catalog object is produced. -/
theorem empty_defs_construction_fails
    (fetch : String → String → Except PyErr Json) :
    ifly_init fetch [] = .error .indexError := rfl

/-- C8: a tool call whose name is absent from the catalog's name index is
rejected with `Unknown tool: <name>` and produces no output blocks; the
upload and chat oracles are arbitrary and never consulted, so no remote
request is made. -/
theorem unknown_tool_rejected (cat : Catalog)
    (upload : String → Json → Except PyErr String)
    (chat_lines : Flow → Json → List String)
    (loads : String → Option Json) (name : String) (arguments : Json)
    (h : dict_lookup cat.name_idx name = none) :
    handle_call_tool cat upload chat_lines loads name arguments =
      .error (.valueError ("Unknown tool: " ++ name)) := by
  unfold handle_call_tool
  rw [h]

/-- Witness for C8: calling `nonexistent` on the concrete catalog
`catalog_w` is rejected. -/
theorem unknown_tool_rejected_witness :
    handle_call_tool catalog_w (fun _ _ => .error .typeError)
      (fun _ _ => []) json_loads "nonexistent" (Json.obj []) =
      .error (.valueError ("Unknown tool: " ++ "nonexistent")) :=
  unknown_tool_rejected catalog_w (fun _ _ => .error .typeError)
    (fun _ _ => []) json_loads "nonexistent" (Json.obj []) rfl

/-! ### Name-collision semantics of the index (C6) -/

/-- Lookup after a dict write: the written key reads back the new value,
every other key is untouched. -/
theorem dict_lookup_insert (d : List (String × Nat)) (k : String) (v : Nat)
    (k' : String) :
    dict_lookup (dict_insert d k v) k' =
      if k' = k then some v else dict_lookup d k' := by
  induction d with
  | nil =>
    by_cases h : k' = k
    · subst h; simp [dict_insert, dict_lookup]
    · have h2 : ¬k = k' := fun hh => h hh.symm
      simp [dict_insert, dict_lookup, h, h2]
  | cons p rest ih =>
    obtain ⟨pk, pv⟩ := p
    by_cases h1 : pk = k
    · by_cases h2 : k' = pk
      · subst h1; subst h2; simp [dict_insert, dict_lookup]
      · have hB : ¬k' = k := fun hh => h2 (hh.trans h1.symm)
        have hA : ¬k = k' := fun hh => hB hh.symm
        simp [dict_insert, dict_lookup, h1, hA, hB]
    · by_cases h2 : k' = pk
      · subst h2
        simp [dict_insert, dict_lookup, h1]
      · have hD : ¬pk = k' := fun hh => h2 hh.symm
        simp [dict_insert, dict_lookup, h1, hD, ih]

/-- Folding the enumeration loop over `flows` from index `i`: a name reads
back the last index assigned to it, and otherwise the accumulator's
binding. -/
theorem build_from_lookup (flows : List Flow) :
    ∀ (i : Nat) (d : List (String × Nat)) (n : String),
      dict_lookup (build_name_idx_from i flows d) n =
        match lastIdxFrom i flows n with
        | some j => some j
        | none => dict_lookup d n := by
  induction flows with
  | nil => intro i d n; simp [build_name_idx_from, lastIdxFrom]
  | cons f fs ih =>
    intro i d n
    simp only [build_name_idx_from, lastIdxFrom]
    rw [ih (i + 1)]
    cases hl : lastIdxFrom (i + 1) fs n with
    | some j => simp
    | none =>
      rw [dict_lookup_insert]
      by_cases hn : n = f.name
      · subst hn; simp
      · have hn2 : ¬f.name = n := fun hh => hn hh.symm
        simp [hn, hn2]

/-- No flow in the list carries the name, so no index is assigned to it. -/
theorem lastIdxFrom_none (post : List Flow) (n : String)
    (h : ∀ p ∈ post, p.name ≠ n) : ∀ i, lastIdxFrom i post n = none := by
  induction post with
  | nil => intro i; simp [lastIdxFrom]
  | cons p ps ih =>
    intro i
    simp only [lastIdxFrom]
    rw [ih (fun q hq => h q (List.mem_cons_of_mem p hq)) (i + 1)]
    simp [h p (List.mem_cons_self p ps)]

/-- When `f` is the last flow named `n`, the loop assigns `n` the index of
`f`. -/
theorem lastIdxFrom_append (pre post : List Flow) (f : Flow) (n : String)
    (hf : f.name = n) (hpost : ∀ p ∈ post, p.name ≠ n) :
    ∀ i, lastIdxFrom i (pre ++ f :: post) n = some (i + pre.length) := by
  induction pre with
  | nil =>
    intro i
    simp only [List.nil_append, lastIdxFrom]
    rw [lastIdxFrom_none post n hpost (i + 1)]
    simp [hf]
  | cons p ps ih =>
    intro i
    simp only [List.cons_append, lastIdxFrom, List.append_eq]
    rw [ih (i + 1)]
    simp only [List.length_cons]
    congr 1
    omega

/-- C6: when two flows of the final catalog share a name (`f` being the
later of them), the name index maps that name to the later flow's
position: lookup by the colliding name returns `f`, and no earlier
position — in particular the earlier flow's — is ever returned. -/
theorem name_collision_later_wins (pre post : List Flow) (f g : Flow)
    (_hg : g ∈ pre) (_hgname : g.name = f.name)
    (hpost : ∀ p ∈ post, p.name ≠ f.name) :
    dict_lookup (build_name_idx (pre ++ f :: post)) f.name =
      some pre.length ∧
    (pre ++ f :: post).get? pre.length = some f ∧
    ∀ i < pre.length,
      dict_lookup (build_name_idx (pre ++ f :: post)) f.name ≠ some i := by
  have h1 : dict_lookup (build_name_idx (pre ++ f :: post)) f.name =
      some pre.length := by
    unfold build_name_idx
    rw [build_from_lookup]
    rw [lastIdxFrom_append pre post f f.name rfl hpost 0]
    simp
  refine ⟨h1, ?_, ?_⟩
  · rw [List.get?_append_right (Nat.le_refl pre.length)]
    simp
  · intro i hi
    rw [h1]
    intro hc
    injection hc with hc
    omega

/-- Witness for C6: with two flows both named `dup`, lookup returns index 1
— the later flow — and never index 0. -/
theorem name_collision_later_wins_witness :
    dict_lookup (build_name_idx ([dup_flow_1] ++ dup_flow_2 :: []))
      dup_flow_2.name = some 1 ∧
    ([dup_flow_1] ++ dup_flow_2 :: []).get? 1 = some dup_flow_2 ∧
    ∀ i < 1,
      dict_lookup (build_name_idx ([dup_flow_1] ++ dup_flow_2 :: []))
        dup_flow_2.name ≠ some i :=
  name_collision_later_wins [dup_flow_1] [] dup_flow_2 dup_flow_1
    (List.mem_singleton.mpr rfl) rfl
    (fun p hp => absurd hp (List.not_mem_nil p))

end IflyServer
